import Mathlib

/-!
Shallow embedding of the Qubole/Hive plugin execution state machine
(go/tasks/plugins/hive/execution.go of this repository) together with the
relevant parts of the remote-plugin machinery it uses.  External
collaborators (task-template reader, resource manager, secret manager,
Qubole client, auto-refresh cache, clock) are modelled as per-invocation
outcome fields of an `Env` record; all in-repository logic is translated
function by function from the Go source.
-/

namespace Hive

/-- ExecutionPhase is a Go `int`; the five declared constants follow. -/
def PhaseNotStarted : Int := 0

/-- resource manager token gotten -/
def PhaseQueued : Int := 1

/-- Sent off to Qubole -/
def PhaseSubmitted : Int := 2

def PhaseQuerySucceeded : Int := 3

def PhaseQueryFailed : Int := 4

/-- The `String()` method of ExecutionPhase. -/
def phaseString (p : Int) : String :=
  if p = PhaseNotStarted then "PhaseNotStarted"
  else if p = PhaseQueued then "PhaseQueued"
  else if p = PhaseSubmitted then "PhaseSubmitted"
  else if p = PhaseQuerySucceeded then "PhaseQuerySucceeded"
  else if p = PhaseQueryFailed then "PhaseQueryFailed"
  else "Bad Qubole execution phase"

/-- ExecutionState from the source.  Go `time.Time` is modelled as a `Nat`
whose zero value answers `IsZero`. -/
structure ExecutionState where
  Phase : Int
  CommandId : String
  URI : String
  SyncFailureCount : Int
  CreationFailureCount : Int
  AllocationTokenRequestStartTime : Nat
deriving DecidableEq

/-- The zero value `ExecutionState\x7b\x7d` of the Go struct. -/
def zeroExecutionState : ExecutionState :=
  { Phase := 0, CommandId := "", URI := "", SyncFailureCount := 0,
    CreationFailureCount := 0, AllocationTokenRequestStartTime := 0 }

/-- Error codes of the `errors` taxonomy used by this file of the source. -/
inductive ErrorKind where
  | BadTaskSpecification
  | ResourceManagerFailure
  | CacheFailed
  | RuntimeFailure
  | DownstreamSystemError
deriving DecidableEq

/-- Errors.  `collab` is an opaque error coming back from an external
collaborator; `tagged` is `errors.Errorf(kind, msg)`; `wrapped` is
`errors.Wrapf(kind, inner, msg)`. -/
inductive Err where
  | collab (id : Nat)
  | tagged (kind : ErrorKind) (msg : String)
  | wrapped (kind : ErrorKind) (inner : Err) (msg : String)
deriving DecidableEq

/-- Whether an error carries a taxonomy kind attached via the errors wrapper. -/
def errHasTaxonomyKind : Err → Bool
  | Err.collab _ => false
  | Err.tagged _ _ => true
  | Err.wrapped _ _ _ => true

/-- The query carried inside a QuboleHiveJob (`hiveJob.Query`). -/
structure HiveQuery where
  query : String
  timeoutSec : Nat
deriving DecidableEq

/-- plugins.QuboleHiveJob; `Query` is a possibly-nil pointer. -/
structure QuboleHiveJob where
  Query : Option HiveQuery
  ClusterLabel : String
  Tags : List String
deriving DecidableEq

/-- One entry of the cluster config map. -/
structure ClusterConfig where
  PrimaryLabel : String
  Labels : List String
deriving DecidableEq

/-- One (project, domain) to cluster-label mapping entry. -/
structure DestinationClusterConfig where
  Project : String
  Domain : String
  ClusterLabel : String
deriving DecidableEq

/-- The parts of config.Config read by the source file. -/
structure Config where
  ClusterConfigs : List ClusterConfig
  DestinationClusterConfigs : List DestinationClusterConfig
  TokenKey : String
deriving DecidableEq

/-- Stable task-identity data read from the TaskExecutionMetadata. -/
structure TaskCtx where
  generatedName : String
  namespaceStr : String
  labels : List (String × String)
  project : String
  domain : String
deriving DecidableEq

/-- client.CommandDetails returned by ExecuteHiveCommand. -/
structure CommandDetails where
  ID : Int
  URI : String
deriving DecidableEq

/-- ExecutionStateCacheItem stored in the auto-refresh cache. -/
structure ExecutionStateCacheItem where
  ExecutionState : ExecutionState
  Id : String
deriving DecidableEq

/-- A value held by the cache: either an `ExecutionStateCacheItem`, or a value
of some other type on which the type assertion in MonitorQuery fails. -/
inductive CacheItemValue where
  | item (c : ExecutionStateCacheItem)
  | foreign (n : Nat)
deriving DecidableEq

deriving instance DecidableEq for Except

/-- Per-invocation outcomes of all external collaborator calls.
`readJob` folds the two external steps TaskReader().Read and
utils.UnmarshalStruct of GetQueryInfo into one outcome (each failure is
propagated identically, unmodified). -/
structure Env where
  readJob : Except Err QuboleHiveJob
  allocResult : Except Err String
  now : Nat
  secretResult : Except Err String
  executeResult : Except Err CommandDetails
  kickOffCacheResult : Except Err CacheItemValue
  monitorCacheResult : Except Err CacheItemValue
  releaseResult : Option Err
  killResult : Option Err
deriving DecidableEq

/-- core.AllocationStatus is a string type in the plugin machinery. -/
def AllocationStatusGranted : String := "Granted"

def AllocationStatusExhausted : String := "Exhausted"

def AllocationStatusNamespaceQuotaExceeded : String := "NamespaceQuotaExceeded"

/-- Modelled from the spec: the fixed default primary cluster label
(declared elsewhere in the repository, not among the provided sources);
only its being a fixed constant matters here. -/
def DefaultClusterPrimaryLabel : String := "default"

/-- Modelled from the spec: core.DefaultPhaseVersion of the plugin machinery
(not among the provided sources); the projector passes it through verbatim. -/
def DefaultPhaseVersion : Nat := 0

/-- idlCore.TaskLog (the fields the source sets). -/
structure TaskLog where
  Name : String
  Uri : String
deriving DecidableEq

/-- core.TaskInfo (the fields the source sets). -/
structure TaskInfo where
  Logs : List TaskLog
  OccurredAt : Nat
deriving DecidableEq

/-- Modelled from the spec: the orchestrator phase-info vocabulary built by
the core.PhaseInfo* helpers (their bodies are not among the provided
sources); each constructor records the arguments of one helper call site,
and `Undefined` is the zero value of core.PhaseInfo. -/
inductive PhaseInfo where
  | NotReady (t : Nat) (version : Nat) (reason : String)
  | Queued (t : Nat) (version : Nat) (reason : String)
  | Running (version : Nat) (info : Option TaskInfo)
  | Success (info : Option TaskInfo)
  | SystemRetryableFailure (code : String) (reason : String) (info : Option TaskInfo)
  | Failure (code : String) (reason : String) (info : Option TaskInfo)
  | Undefined
deriving DecidableEq

/-- ConstructTaskLog from the source. -/
def ConstructTaskLog (e : ExecutionState) : TaskLog :=
  { Name := "Status: " ++ phaseString e.Phase ++ " [" ++ e.CommandId ++ "]",
    Uri := e.URI }

/-- ConstructTaskInfo from the source; `now` stands for the `time.Now()`
taken inside the function, `none` is the nil return. -/
def ConstructTaskInfo (now : Nat) (e : ExecutionState) : Option TaskInfo :=
  if e.CommandId ≠ "" then
    some { Logs := [ConstructTaskLog e], OccurredAt := now }
  else
    none

/-- validateQuboleHiveJob from the source. -/
def validateQuboleHiveJob (hiveJob : QuboleHiveJob) : Option Err :=
  match hiveJob.Query with
  | none => some (Err.tagged ErrorKind.BadTaskSpecification
      ("Query could not be found. Please ensure that you are at least on Flytekit version 0.3.0 or later."))
  | some _ => none

/-- GetQueryInfo from the source: reads the task template (external, via
`env.readJob`), validates it, and extracts query, cluster label, tags and
timeout. -/
def GetQueryInfo (tCtx : TaskCtx) (env : Env) :
    Except Err (String × String × List String × Nat) :=
  match env.readJob with
  | Except.error e => Except.error e
  | Except.ok hiveJob =>
    match validateQuboleHiveJob hiveJob with
    | some e => Except.error e
    | none =>
      let query := match hiveJob.Query with | some q => q.query | none => ""
      let cluster := hiveJob.ClusterLabel
      let timeoutSec := match hiveJob.Query with | some q => q.timeoutSec | none => 0
      let tags := hiveJob.Tags ++ [("ns:" ++ tCtx.namespaceStr)]
        ++ tCtx.labels.map (fun kv => kv.1 ++ ":" ++ kv.2)
      Except.ok (query, cluster, tags, timeoutSec)

/-- Whether one ClusterConfig entry matches the label: the inner loop of
mapLabelToPrimaryLabel (its `break` only exits the inner loop). -/
def mapLabelMatches (label : String) (clusterCfg : ClusterConfig) : Bool :=
  clusterCfg.Labels.any (fun l => (label != "") && (l == label))

/-- The outer loop of mapLabelToPrimaryLabel: the running
(primaryLabel, found) accumulator is overwritten by every matching entry. -/
def mapLabelLoop (label : String) : String × Bool → List ClusterConfig → String × Bool
  | acc, [] => acc
  | acc, clusterCfg :: rest =>
    if mapLabelMatches label clusterCfg then
      mapLabelLoop label (clusterCfg.PrimaryLabel, true) rest
    else
      mapLabelLoop label acc rest

/-- mapLabelToPrimaryLabel from the source. -/
def mapLabelToPrimaryLabel (quboleCfg : Config) (label : String) : String × Bool :=
  if label = "" then
    (DefaultClusterPrimaryLabel, false)
  else
    mapLabelLoop label (DefaultClusterPrimaryLabel, false) quboleCfg.ClusterConfigs

/-- mapProjectDomainToDestinationClusterLabel from the source: linear search
returning the first (project, domain) match, else ("", false). -/
def mapProjectDomainToDestinationClusterLabel (tCtx : TaskCtx) (quboleCfg : Config) :
    String × Bool :=
  match quboleCfg.DestinationClusterConfigs.find?
      (fun m => (tCtx.project == m.Project) && (tCtx.domain == m.Domain)) with
  | some m => (m.ClusterLabel, true)
  | none => ("", false)

/-- getClusterPrimaryLabel from the source. -/
def getClusterPrimaryLabel (cfg : Config) (tCtx : TaskCtx) (clusterLabelOverride : String) :
    String :=
  if clusterLabelOverride ≠ "" ∧ (mapLabelToPrimaryLabel cfg clusterLabelOverride).2 then
    (mapLabelToPrimaryLabel cfg clusterLabelOverride).1
  else if (mapProjectDomainToDestinationClusterLabel tCtx cfg).2 then
    (mapLabelToPrimaryLabel cfg (mapProjectDomainToDestinationClusterLabel tCtx cfg).1).1
  else
    DefaultClusterPrimaryLabel

/-- composeResourceNamespaceWithClusterPrimaryLabel from the source. -/
def composeResourceNamespaceWithClusterPrimaryLabel (cfg : Config) (tCtx : TaskCtx)
    (env : Env) : Except Err String :=
  match GetQueryInfo tCtx env with
  | Except.error err => Except.error err
  | Except.ok info =>
    Except.ok (getClusterPrimaryLabel cfg tCtx info.2.1)

/-- GetAllocationToken from the source.  The metric observation has no
effect on the returned state and is omitted. -/
def GetAllocationToken (cfg : Config) (tCtx : TaskCtx) (env : Env)
    (currentState : ExecutionState) : ExecutionState × Option Err :=
  let newState : ExecutionState := zeroExecutionState
  match composeResourceNamespaceWithClusterPrimaryLabel cfg tCtx env with
  | Except.error err =>
    (newState, some (Err.wrapped ErrorKind.ResourceManagerFailure err
      ("Error getting query info when requesting allocation token")))
  | Except.ok _clusterPrimaryLabel =>
    match env.allocResult with
    | Except.error err =>
      (newState, some (Err.wrapped ErrorKind.ResourceManagerFailure err
        ("Error requesting allocation token")))
    | Except.ok allocationStatus =>
      let newState :=
        if currentState.AllocationTokenRequestStartTime = 0 then
          { newState with AllocationTokenRequestStartTime := env.now }
        else
          { newState with AllocationTokenRequestStartTime :=
              currentState.AllocationTokenRequestStartTime }
      if allocationStatus = AllocationStatusGranted then
        ({ newState with Phase := PhaseQueued }, none)
      else if allocationStatus = AllocationStatusExhausted then
        ({ newState with Phase := PhaseNotStarted }, none)
      else if allocationStatus = AllocationStatusNamespaceQuotaExceeded then
        ({ newState with Phase := PhaseNotStarted }, none)
      else
        (newState, some (Err.tagged ErrorKind.ResourceManagerFailure
          ("Got bad allocation result")))

/-- KickOffQuery from the source.  `strconv.FormatInt(id, 10)` is `toString`
on `Int`. -/
def KickOffQuery (cfg : Config) (tCtx : TaskCtx) (env : Env)
    (currentState : ExecutionState) : ExecutionState × Option Err :=
  let uniqueId := tCtx.generatedName
  match env.secretResult with
  | Except.error err =>
    (currentState, some (Err.wrapped ErrorKind.RuntimeFailure err
      ("Failed to read token from secrets manager")))
  | Except.ok _apiKey =>
    match GetQueryInfo tCtx env with
    | Except.error err => (currentState, some err)
    | Except.ok info =>
      let _clusterPrimaryLabel := getClusterPrimaryLabel cfg tCtx info.2.1
      match env.executeResult with
      | Except.error _err =>
        ({ currentState with CreationFailureCount := currentState.CreationFailureCount + 1 },
          none)
      | Except.ok cmdDetails =>
        let commandId := toString cmdDetails.ID
        let currentState := { currentState with
          CommandId := commandId, Phase := PhaseSubmitted, URI := cmdDetails.URI }
        let _executionStateCacheItem : ExecutionStateCacheItem :=
          { ExecutionState := currentState, Id := uniqueId }
        match env.kickOffCacheResult with
        | Except.error err => (currentState, some err)
        | Except.ok _ => (currentState, none)

/-- MonitorQuery from the source. -/
def MonitorQuery (tCtx : TaskCtx) (env : Env) (currentState : ExecutionState) :
    ExecutionState × Option Err :=
  let uniqueId := tCtx.generatedName
  let _executionStateCacheItem : ExecutionStateCacheItem :=
    { ExecutionState := currentState, Id := uniqueId }
  match env.monitorCacheResult with
  | Except.error err =>
    (currentState, some (Err.wrapped ErrorKind.CacheFailed err
      ("Error when GetOrCreate while monitoring")))
  | Except.ok cachedItem =>
    match cachedItem with
    | CacheItemValue.item cachedExecutionState =>
      (cachedExecutionState.ExecutionState, none)
    | CacheItemValue.foreign _ =>
      (currentState, some (Err.tagged ErrorKind.CacheFailed ("Failed to cast cached item")))

/-- HandleExecutionState from the source: the Go switch on the phase; when no
case matches, the zero-initialised `newState` and nil `transformError` are
returned. -/
def HandleExecutionState (cfg : Config) (tCtx : TaskCtx) (env : Env)
    (currentState : ExecutionState) : ExecutionState × Option Err :=
  if currentState.Phase = PhaseNotStarted then
    GetAllocationToken cfg tCtx env currentState
  else if currentState.Phase = PhaseQueued then
    KickOffQuery cfg tCtx env currentState
  else if currentState.Phase = PhaseSubmitted then
    MonitorQuery tCtx env currentState
  else if currentState.Phase = PhaseQuerySucceeded then
    (currentState, none)
  else if currentState.Phase = PhaseQueryFailed then
    (currentState, none)
  else
    (zeroExecutionState, none)

/-- MapExecutionStateToPhaseInfo from the source.  The Go conversion
`uint32(state.CreationFailureCount)` truncates to the low 32 bits. -/
def MapExecutionStateToPhaseInfo (now : Nat) (state : ExecutionState) : PhaseInfo :=
  if state.Phase = PhaseNotStarted then
    PhaseInfo.NotReady now DefaultPhaseVersion ("Haven\x27t received allocation token")
  else if state.Phase = PhaseQueued then
    if state.CreationFailureCount > 5 then
      PhaseInfo.SystemRetryableFailure ("QuboleFailure") ("Too many creation attempts") none
    else
      PhaseInfo.Queued now ((state.CreationFailureCount % (2 ^ 32 : Int)).toNat)
        ("Waiting for Qubole launch")
  else if state.Phase = PhaseSubmitted then
    PhaseInfo.Running DefaultPhaseVersion (ConstructTaskInfo now state)
  else if state.Phase = PhaseQuerySucceeded then
    PhaseInfo.Success (ConstructTaskInfo now state)
  else if state.Phase = PhaseQueryFailed then
    PhaseInfo.Failure ("DownstreamSystemError") ("Query failed") (ConstructTaskInfo now state)
  else
    PhaseInfo.Undefined

/-- InTerminalState from the source. -/
def InTerminalState (e : ExecutionState) : Bool :=
  (e.Phase == PhaseQuerySucceeded) || (e.Phase == PhaseQueryFailed)

/-- IsNotYetSubmitted from the source. -/
def IsNotYetSubmitted (e : ExecutionState) : Bool :=
  if e.Phase = PhaseNotStarted ∨ e.Phase = PhaseQueued then true else false

/-- Abort from the source, instrumented with the number of KillCommand calls
issued (first component). -/
def Abort (env : Env) (currentState : ExecutionState) : Nat × Option Err :=
  if !(InTerminalState currentState) && (currentState.CommandId != "") then
    match env.killResult with
    | some err => (1, some err)
    | none => (1, none)
  else
    (0, none)

/-- Finalize from the source, instrumented with the number of
ReleaseResource calls issued (first component). -/
def Finalize (cfg : Config) (tCtx : TaskCtx) (env : Env) : Nat × Option Err :=
  match composeResourceNamespaceWithClusterPrimaryLabel cfg tCtx env with
  | Except.error err =>
    (0, some (Err.wrapped ErrorKind.ResourceManagerFailure err
      ("Error getting query info when releasing allocation token")))
  | Except.ok _clusterPrimaryLabel =>
    match env.releaseResult with
    | some err => (1, some err)
    | none => (1, none)

/-- Whether an Except result is the ok branch (nil error in Go). -/
def exceptIsOk {α : Type} : Except Err α → Bool
  | Except.ok _ => true
  | Except.error _ => false

/-- The spec invariant restricted to what the terminal-phase claims need:
a terminal-phase state carries a non-empty command id. -/
def terminalHasCommandId (s : ExecutionState) : Bool :=
  !(InTerminalState s) || (s.CommandId != "")

/-- Whether a cache value respects `terminalHasCommandId`. -/
def goodCacheItemValue : CacheItemValue → Bool
  | CacheItemValue.item c => terminalHasCommandId c.ExecutionState
  | CacheItemValue.foreign _ => true

/-- Modelled from the spec: the auto-refresh cache entries are seeded by
KickOffQuery with a Submitted state whose command id is non-empty and are
updated by the repository's background refresh (code not among the provided
sources), which per the spec folds status into a new ExecutionState while
`backendCommandId is non-empty iff phase ∈ \x7bSubmitted, Succeeded, Failed\x7d`;
hence any value MonitorQuery can read back satisfies `terminalHasCommandId`. -/
def GoodEnv (env : Env) : Bool :=
  match env.monitorCacheResult with
  | Except.ok v => goodCacheItemValue v
  | Except.error _ => true

/-- States reachable from the zero (NotStarted) state by iterating
HandleExecutionState under arbitrary collaborator outcomes whose cache
reads satisfy `GoodEnv`. -/
inductive Reachable (cfg : Config) (tCtx : TaskCtx) : ExecutionState → Prop where
  | init : Reachable cfg tCtx zeroExecutionState
  | step (s : ExecutionState) (env : Env) (hs : Reachable cfg tCtx s)
      (hg : GoodEnv env = true) : Reachable cfg tCtx (HandleExecutionState cfg tCtx env s).1

/-- Iterating KickOffQuery n times from a state, with per-attempt
collaborator outcomes. -/
def kickOffSeq (cfg : Config) (tCtx : TaskCtx) (envs : Nat → Env) (s : ExecutionState) :
    Nat → ExecutionState
  | 0 => s
  | n + 1 => (KickOffQuery cfg tCtx (envs n) (kickOffSeq cfg tCtx envs s n)).1

/-- A well-formed hive job used for concrete evaluations. -/
def jobW : QuboleHiveJob :=
  { Query := some { query := "select 1", timeoutSec := 500 }, ClusterLabel := "", Tags := [] }

/-- A concrete task identity. -/
def tW : TaskCtx :=
  { generatedName := "gen-name", namespaceStr := "ns1", labels := [], project := "p",
    domain := "d" }

/-- A concrete task identity whose (project, domain) matches no mapping. -/
def tW3 : TaskCtx := { tW with project := "zz" }

/-- An empty cluster configuration. -/
def cfgW : Config := { ClusterConfigs := [], DestinationClusterConfigs := [], TokenKey := "token" }

/-- The label-resolution scenario configuration: override label teamA maps to
primary label prod-1; (p, d) maps to label teamB whose primary is prod-2. -/
def cfg8 : Config :=
  { ClusterConfigs := [ { PrimaryLabel := "prod-1", Labels := ["teamA"] },
                        { PrimaryLabel := "prod-2", Labels := ["teamB"] } ],
    DestinationClusterConfigs := [ { Project := "p", Domain := "d", ClusterLabel := "teamB" } ],
    TokenKey := "token" }

/-- An environment in which every collaborator call succeeds. -/
def envOkW : Env :=
  { readJob := Except.ok jobW, allocResult := Except.ok AllocationStatusGranted, now := 7,
    secretResult := Except.ok "key", executeResult := Except.ok { ID := 123, URI := "uri-1" },
    kickOffCacheResult := Except.ok (CacheItemValue.foreign 0),
    monitorCacheResult := Except.ok (CacheItemValue.foreign 0),
    releaseResult := none, killResult := none }

/-- Environment whose admission request is denied with Exhausted. -/
def envDenyW : Env := { envOkW with allocResult := Except.ok AllocationStatusExhausted }

/-- Environment whose admission request itself errors. -/
def envAllocErrW : Env := { envOkW with allocResult := Except.error (Err.collab 3) }

/-- Environment whose task-template read errors. -/
def envReadErrW : Env := { envOkW with readJob := Except.error (Err.collab 1) }

/-- Environment whose cache registration in KickOffQuery errors. -/
def envKickCacheErrW : Env :=
  { envOkW with kickOffCacheResult := Except.error (Err.collab 7) }

/-- Environment whose backend create call errors. -/
def envExecFailW : Env := { envOkW with executeResult := Except.error (Err.collab 2) }

/-- The Queued state after a first granted admission at time 7. -/
def s1W : ExecutionState :=
  { zeroExecutionState with Phase := PhaseQueued, AllocationTokenRequestStartTime := 7 }

/-- The Submitted state after a successful create with command id 123. -/
def s2W : ExecutionState :=
  { s1W with Phase := PhaseSubmitted, CommandId := "123", URI := "uri-1" }

/-- A terminal Succeeded state with the same command id. -/
def sTermW : ExecutionState := { s2W with Phase := PhaseQuerySucceeded }

/-- Environment whose cache read returns the terminal state `sTermW`. -/
def cacheItemTermW : CacheItemValue :=
  CacheItemValue.item { ExecutionState := sTermW, Id := "gen-name" }

def envTermW : Env := { envOkW with monitorCacheResult := Except.ok cacheItemTermW }

/-- A plain Queued state. -/
def sQW : ExecutionState := { zeroExecutionState with Phase := PhaseQueued }

/-- A Queued state with 6 creation failures. -/
def sQ6W : ExecutionState := { sQW with CreationFailureCount := 6 }

/-- A Queued state with 3 creation failures. -/
def sQ3W : ExecutionState := { sQW with CreationFailureCount := 3 }

/-- A NotStarted state whose admission request start time is already set. -/
def sW5 : ExecutionState := { zeroExecutionState with AllocationTokenRequestStartTime := 5 }

/-- A state whose phase is outside the five declared constants. -/
def s7W : ExecutionState := { zeroExecutionState with Phase := 7 }


/-- Branch equation: MonitorQuery when the cache read errors. -/
theorem monitorQuery_cache_error (tCtx : TaskCtx) (env : Env) (s : ExecutionState) (e : Err)
    (hm : env.monitorCacheResult = Except.error e) :
    MonitorQuery tCtx env s =
      (s, some (Err.wrapped ErrorKind.CacheFailed e ("Error when GetOrCreate while monitoring"))) := by
  simp [MonitorQuery, hm]

/-- Branch equation: MonitorQuery when the cache returns a cast-able item. -/
theorem monitorQuery_cache_item (tCtx : TaskCtx) (env : Env) (s : ExecutionState)
    (c : ExecutionStateCacheItem)
    (hm : env.monitorCacheResult = Except.ok (CacheItemValue.item c)) :
    MonitorQuery tCtx env s = (c.ExecutionState, none) := by
  simp [MonitorQuery, hm]

/-- Branch equation: MonitorQuery when the cache value fails the cast. -/
theorem monitorQuery_cache_foreign (tCtx : TaskCtx) (env : Env) (s : ExecutionState) (n : Nat)
    (hm : env.monitorCacheResult = Except.ok (CacheItemValue.foreign n)) :
    MonitorQuery tCtx env s =
      (s, some (Err.tagged ErrorKind.CacheFailed ("Failed to cast cached item"))) := by
  simp [MonitorQuery, hm]

/-- Branch equation: KickOffQuery when the secret fetch errors. -/
theorem kickOffQuery_secret_error (cfg : Config) (tCtx : TaskCtx) (env : Env)
    (s : ExecutionState) (e : Err) (hs : env.secretResult = Except.error e) :
    KickOffQuery cfg tCtx env s =
      (s, some (Err.wrapped ErrorKind.RuntimeFailure e
        ("Failed to read token from secrets manager"))) := by
  simp [KickOffQuery, hs]

/-- Branch equation: KickOffQuery when GetQueryInfo errors. -/
theorem kickOffQuery_info_error (cfg : Config) (tCtx : TaskCtx) (env : Env)
    (s : ExecutionState) (k : String) (e : Err) (hs : env.secretResult = Except.ok k)
    (hq : GetQueryInfo tCtx env = Except.error e) :
    KickOffQuery cfg tCtx env s = (s, some e) := by
  simp [KickOffQuery, hs, hq]

/-- Branch equation: KickOffQuery when the backend create call fails. -/
theorem kickOffQuery_exec_error (cfg : Config) (tCtx : TaskCtx) (env : Env)
    (s : ExecutionState) (k : String) (info : String × String × List String × Nat) (e : Err)
    (hs : env.secretResult = Except.ok k) (hq : GetQueryInfo tCtx env = Except.ok info)
    (he : env.executeResult = Except.error e) :
    KickOffQuery cfg tCtx env s =
      ({ s with CreationFailureCount := s.CreationFailureCount + 1 }, none) := by
  simp [KickOffQuery, hs, hq, he]

/-- Branch equation: KickOffQuery when the backend create call succeeds. -/
theorem kickOffQuery_exec_ok (cfg : Config) (tCtx : TaskCtx) (env : Env)
    (s : ExecutionState) (k : String) (info : String × String × List String × Nat)
    (cd : CommandDetails) (hs : env.secretResult = Except.ok k)
    (hq : GetQueryInfo tCtx env = Except.ok info) (he : env.executeResult = Except.ok cd) :
    KickOffQuery cfg tCtx env s =
      ({ s with CommandId := toString cd.ID, Phase := PhaseSubmitted, URI := cd.URI },
        match env.kickOffCacheResult with
        | Except.error e => some e
        | Except.ok _ => none) := by
  rcases hc : env.kickOffCacheResult with e | v <;> simp [KickOffQuery, hs, hq, he, hc]

/-- Branch equation: GetAllocationToken when namespace computation errors. -/
theorem getAllocationToken_compose_error (cfg : Config) (tCtx : TaskCtx) (env : Env)
    (s : ExecutionState) (e : Err)
    (hcm : composeResourceNamespaceWithClusterPrimaryLabel cfg tCtx env = Except.error e) :
    GetAllocationToken cfg tCtx env s =
      (zeroExecutionState, some (Err.wrapped ErrorKind.ResourceManagerFailure e
        ("Error getting query info when requesting allocation token"))) := by
  simp [GetAllocationToken, hcm]

/-- Branch equation: GetAllocationToken when the allocator call errors. -/
theorem getAllocationToken_alloc_error (cfg : Config) (tCtx : TaskCtx) (env : Env)
    (s : ExecutionState) (lbl : String) (e : Err)
    (hcm : composeResourceNamespaceWithClusterPrimaryLabel cfg tCtx env = Except.ok lbl)
    (ha : env.allocResult = Except.error e) :
    GetAllocationToken cfg tCtx env s =
      (zeroExecutionState, some (Err.wrapped ErrorKind.ResourceManagerFailure e
        ("Error requesting allocation token"))) := by
  simp [GetAllocationToken, hcm, ha]

/-- Branch equation: GetAllocationToken when the allocator returns a status. -/
theorem getAllocationToken_status (cfg : Config) (tCtx : TaskCtx) (env : Env)
    (s : ExecutionState) (lbl status : String)
    (hcm : composeResourceNamespaceWithClusterPrimaryLabel cfg tCtx env = Except.ok lbl)
    (ha : env.allocResult = Except.ok status) :
    GetAllocationToken cfg tCtx env s =
      (let ns : ExecutionState := { zeroExecutionState with AllocationTokenRequestStartTime :=
          if s.AllocationTokenRequestStartTime = 0 then env.now
          else s.AllocationTokenRequestStartTime }
       if status = AllocationStatusGranted then ({ ns with Phase := PhaseQueued }, none)
       else if status = AllocationStatusExhausted then ({ ns with Phase := PhaseNotStarted }, none)
       else if status = AllocationStatusNamespaceQuotaExceeded then
         ({ ns with Phase := PhaseNotStarted }, none)
       else (ns, some (Err.tagged ErrorKind.ResourceManagerFailure
         ("Got bad allocation result")))) := by
  by_cases hz : s.AllocationTokenRequestStartTime = 0 <;>
    simp [GetAllocationToken, hcm, ha, hz]

/-- C10: a state whose phase is outside the five declared ExecutionPhase
constants makes HandleExecutionState return the zero ExecutionState together
with a nil error: no case of the switch matches, so the zero-initialised
locals are returned and the task is silently reset. -/
theorem hive_C10 (cfg : Config) (tCtx : TaskCtx) (env : Env) (s : ExecutionState)
    (h0 : s.Phase ≠ PhaseNotStarted) (h1 : s.Phase ≠ PhaseQueued)
    (h2 : s.Phase ≠ PhaseSubmitted) (h3 : s.Phase ≠ PhaseQuerySucceeded)
    (h4 : s.Phase ≠ PhaseQueryFailed) :
    HandleExecutionState cfg tCtx env s = (zeroExecutionState, none) := by
  simp [HandleExecutionState, h0, h1, h2, h3, h4]

theorem hive_C10_witness :
    HandleExecutionState cfgW tW envOkW s7W = (zeroExecutionState, none) :=
  hive_C10 cfgW tW envOkW s7W (by decide) (by decide) (by decide) (by decide) (by decide)

/-- C9: Abort issues no backend KillCommand call and returns nil when the
state is terminal (Succeeded or Failed); the cancel call is made exactly when
the phase is non-terminal and the command id is non-empty. -/
theorem hive_C9 (env : Env) (s : ExecutionState) :
    (InTerminalState s = true → Abort env s = (0, none)) ∧
    ((Abort env s).1 ≠ 0 → InTerminalState s = false ∧ s.CommandId ≠ "") ∧
    (InTerminalState s = false → s.CommandId ≠ "" → (Abort env s).1 = 1) := by
  refine ⟨?_, ?_, ?_⟩
  · intro ht
    simp [Abort, ht]
  · intro hne
    by_cases hterm : InTerminalState s = true
    · exact absurd (by simp [Abort, hterm]) hne
    · rw [Bool.not_eq_true] at hterm
      refine ⟨hterm, ?_⟩
      by_cases hcmd : s.CommandId = ""
      · exact absurd (by simp [Abort, hcmd]) hne
      · exact hcmd
  · intro hterm hcmd
    simp only [Abort, hterm, Bool.not_false, Bool.true_and]
    rw [if_pos (by simpa using hcmd)]
    cases env.killResult <;> simp

theorem hive_C9_witness : Abort envOkW sTermW = (0, none) :=
  (hive_C9 envOkW sTermW).1 (by decide)

/-- C1 (code evaluation): when computing the resource namespace fails inside
Finalize (here: the task-template read errors), Finalize returns early with a
wrapped error and the ReleaseResource call count is 0, not 1; on the success
path the count is exactly 1.  The release is therefore not invoked on every
exit path of Finalize. -/
theorem hive_C1_eval :
    (Finalize cfgW tW envReadErrW).1 = 0 ∧
    (Finalize cfgW tW envReadErrW).2.isSome = true ∧
    (Finalize cfgW tW envOkW).1 = 1 := by decide

/-- C7: at phase Queued with a non-negative failure counter, the projector
reports the terminal system-retryable failure exactly when
creationFailureCount exceeds the fixed ceiling 5, and otherwise reports a
queued phase whose version is the counter. -/
theorem hive_C7 (now : Nat) (state : ExecutionState) (hq : state.Phase = PhaseQueued)
    (hnn : 0 ≤ state.CreationFailureCount) :
    (MapExecutionStateToPhaseInfo now state =
        PhaseInfo.SystemRetryableFailure ("QuboleFailure") ("Too many creation attempts") none
      ↔ 5 < state.CreationFailureCount) ∧
    (state.CreationFailureCount ≤ 5 →
      MapExecutionStateToPhaseInfo now state =
        PhaseInfo.Queued now state.CreationFailureCount.toNat
          ("Waiting for Qubole launch")) := by
  have hne : PhaseQueued ≠ PhaseNotStarted := by decide
  constructor
  · constructor
    · intro h
      by_contra hgt
      rw [not_lt] at hgt
      simp [MapExecutionStateToPhaseInfo, hq, hne, not_lt.mpr hgt] at h
    · intro h
      simp [MapExecutionStateToPhaseInfo, hq, hne, h]
  · intro hle
    simp [MapExecutionStateToPhaseInfo, hq, hne, not_lt.mpr hle]
    omega

theorem hive_C7_witness :
    MapExecutionStateToPhaseInfo 0 sQ6W =
      PhaseInfo.SystemRetryableFailure ("QuboleFailure") ("Too many creation attempts") none ∧
    MapExecutionStateToPhaseInfo 0 sQ3W =
      PhaseInfo.Queued 0 (Int.toNat sQ3W.CreationFailureCount) ("Waiting for Qubole launch") :=
  ⟨(hive_C7 0 sQ6W (by decide) (by decide)).1.mpr (by decide),
   (hive_C7 0 sQ3W (by decide) (by decide)).2 (by decide)⟩

/-- C5: at a NotStarted state whose namespace computation succeeds, an
admission denial (Exhausted or NamespaceQuotaExceeded) returns nil error, a
state still at phase NotStarted with a zero creation-failure counter (hence
not incremented), and an admission start time equal to the input's when that
was already set, and set to the current time only on the first attempt. -/
theorem hive_C5 (cfg : Config) (tCtx : TaskCtx) (env : Env) (s : ExecutionState)
    (hp : s.Phase = PhaseNotStarted)
    (hok : exceptIsOk (composeResourceNamespaceWithClusterPrimaryLabel cfg tCtx env) = true)
    (hdeny : env.allocResult = Except.ok AllocationStatusExhausted ∨
             env.allocResult = Except.ok AllocationStatusNamespaceQuotaExceeded) :
    (GetAllocationToken cfg tCtx env s).2 = none ∧
    (GetAllocationToken cfg tCtx env s).1.Phase = PhaseNotStarted ∧
    (GetAllocationToken cfg tCtx env s).1.CreationFailureCount = 0 ∧
    (0 ≤ s.CreationFailureCount →
      (GetAllocationToken cfg tCtx env s).1.CreationFailureCount ≤ s.CreationFailureCount) ∧
    (s.AllocationTokenRequestStartTime ≠ 0 →
      (GetAllocationToken cfg tCtx env s).1.AllocationTokenRequestStartTime =
        s.AllocationTokenRequestStartTime) ∧
    (s.AllocationTokenRequestStartTime = 0 →
      (GetAllocationToken cfg tCtx env s).1.AllocationTokenRequestStartTime = env.now) := by
  rcases hcm : composeResourceNamespaceWithClusterPrimaryLabel cfg tCtx env with e | lbl
  · rw [hcm] at hok
    simp [exceptIsOk] at hok
  · have hxg : AllocationStatusExhausted ≠ AllocationStatusGranted := by decide
    have hng : AllocationStatusNamespaceQuotaExceeded ≠ AllocationStatusGranted := by decide
    have hnx : AllocationStatusNamespaceQuotaExceeded ≠ AllocationStatusExhausted := by decide
    rcases hdeny with hd | hd <;>
      rw [getAllocationToken_status cfg tCtx env s lbl _ hcm hd] <;>
      by_cases hz : s.AllocationTokenRequestStartTime = 0 <;>
      simp [hxg, hng, hnx, hz, zeroExecutionState]

theorem hive_C5_witness :
    (GetAllocationToken cfgW tW envDenyW sW5).2 = none ∧
    (GetAllocationToken cfgW tW envDenyW sW5).1.Phase = PhaseNotStarted ∧
    (GetAllocationToken cfgW tW envDenyW sW5).1.AllocationTokenRequestStartTime =
      sW5.AllocationTokenRequestStartTime := by
  obtain ⟨h1, h2, h3, h4, h5, h6⟩ :=
    hive_C5 cfgW tW envDenyW sW5 (by decide) (by decide) (Or.inl (by decide))
  exact ⟨h1, h2, h5 (by decide)⟩

/-- C3 (counterexample): when the cache registration inside KickOffQuery
fails, the collaborator error is returned as-is and carries no taxonomy
kind. -/
theorem hive_C3_cex :
    (KickOffQuery cfgW tW envKickCacheErrW sQW).2 = some (Err.collab 7) ∧
    errHasTaxonomyKind (Err.collab 7) = false := by decide

/-- C3 (amended): every non-nil error returned by GetAllocationToken and
MonitorQuery carries a taxonomy kind attached via the errors wrapper; an
error returned by KickOffQuery carries a taxonomy kind unless it is passed
through unmodified from GetQueryInfo or from the cache registration call. -/
theorem hive_C3_amended (cfg : Config) (tCtx : TaskCtx) (env : Env) (s : ExecutionState) :
    (∀ e, (GetAllocationToken cfg tCtx env s).2 = some e → errHasTaxonomyKind e = true) ∧
    (∀ e, (MonitorQuery tCtx env s).2 = some e → errHasTaxonomyKind e = true) ∧
    (∀ e, (KickOffQuery cfg tCtx env s).2 = some e →
      errHasTaxonomyKind e = true ∨ GetQueryInfo tCtx env = Except.error e ∨
        env.kickOffCacheResult = Except.error e) := by
  refine ⟨?_, ?_, ?_⟩
  · intro e h
    rcases hcm : composeResourceNamespaceWithClusterPrimaryLabel cfg tCtx env with e2 | lbl
    · rw [getAllocationToken_compose_error cfg tCtx env s e2 hcm] at h
      simp only [Option.some.injEq] at h
      rw [← h]
      rfl
    · rcases ha : env.allocResult with e2 | status
      · rw [getAllocationToken_alloc_error cfg tCtx env s lbl e2 hcm ha] at h
        simp only [Option.some.injEq] at h
        rw [← h]
        rfl
      · rw [getAllocationToken_status cfg tCtx env s lbl status hcm ha] at h
        have hxg : AllocationStatusExhausted ≠ AllocationStatusGranted := by decide
        have hng : AllocationStatusNamespaceQuotaExceeded ≠ AllocationStatusGranted := by decide
        have hnx : AllocationStatusNamespaceQuotaExceeded ≠ AllocationStatusExhausted := by decide
        by_cases hg : status = AllocationStatusGranted
        · simp [hg] at h
        by_cases hx : status = AllocationStatusExhausted
        · simp [hx, hxg] at h
        by_cases hn : status = AllocationStatusNamespaceQuotaExceeded
        · simp [hn, hng, hnx] at h
        simp [hg, hx, hn] at h
        rw [← h]
        rfl
  · intro e h
    rcases hm : env.monitorCacheResult with e2 | v
    · rw [monitorQuery_cache_error tCtx env s e2 hm] at h
      simp only [Option.some.injEq] at h
      rw [← h]
      rfl
    · rcases v with c | n
      · rw [monitorQuery_cache_item tCtx env s c hm] at h
        simp at h
      · rw [monitorQuery_cache_foreign tCtx env s n hm] at h
        simp only [Option.some.injEq] at h
        rw [← h]
        rfl
  · intro e h
    rcases hs : env.secretResult with e2 | k
    · rw [kickOffQuery_secret_error cfg tCtx env s e2 hs] at h
      simp only [Option.some.injEq] at h
      rw [← h]
      exact Or.inl rfl
    · rcases hq : GetQueryInfo tCtx env with e2 | info
      · rw [kickOffQuery_info_error cfg tCtx env s k e2 hs hq] at h
        simp only [Option.some.injEq] at h
        rw [← h]
        exact Or.inr (Or.inl rfl)
      · rcases he : env.executeResult with e2 | cd
        · rw [kickOffQuery_exec_error cfg tCtx env s k info e2 hs hq he] at h
          simp at h
        · rcases hc : env.kickOffCacheResult with e2 | v
          · rw [kickOffQuery_exec_ok cfg tCtx env s k info cd hs hq he, hc] at h
            simp only [Option.some.injEq] at h
            rw [← h]
            exact Or.inr (Or.inr rfl)
          · rw [kickOffQuery_exec_ok cfg tCtx env s k info cd hs hq he, hc] at h
            simp at h

theorem hive_C3_witness :
    errHasTaxonomyKind (Err.wrapped ErrorKind.ResourceManagerFailure (Err.collab 3)
      ("Error requesting allocation token")) = true :=
  (hive_C3_amended cfgW tW envAllocErrW sW5).1
    (Err.wrapped ErrorKind.ResourceManagerFailure (Err.collab 3)
      ("Error requesting allocation token"))
    (by decide)

/-- C6: from any state, a failed backend create attempt (with the secret and
query info available) increments creationFailureCount by exactly one and
changes nothing else, so iterating failed create attempts from Queued keeps
the phase Queued and the command id unchanged while the counter grows
monotonically by one per attempt and never resets. -/
theorem hive_C6 (cfg : Config) (tCtx : TaskCtx) (envs : Nat → Env) (s : ExecutionState)
    (hq : s.Phase = PhaseQueued)
    (hsec : ∀ i, exceptIsOk (envs i).secretResult = true)
    (hinfo : ∀ i, exceptIsOk (GetQueryInfo tCtx (envs i)) = true)
    (hexec : ∀ i, exceptIsOk (envs i).executeResult = false) :
    ∀ n, kickOffSeq cfg tCtx envs s n =
      { s with CreationFailureCount := s.CreationFailureCount + (n : Int) } := by
  intro n
  induction n with
  | zero => simp [kickOffSeq]
  | succ n ih =>
    have h1 := hsec n
    have h2 := hinfo n
    have h3 := hexec n
    rcases hs : (envs n).secretResult with e | k
    · rw [hs] at h1
      simp [exceptIsOk] at h1
    · rcases hgi : GetQueryInfo tCtx (envs n) with e | info
      · rw [hgi] at h2
        simp [exceptIsOk] at h2
      · rcases he : (envs n).executeResult with e | cd
        · rw [kickOffSeq, ih,
            kickOffQuery_exec_error cfg tCtx (envs n) _ k info e hs hgi he]
          simp
          omega
        · rw [he] at h3
          simp [exceptIsOk] at h3

theorem hive_C6_witness :
    kickOffSeq cfgW tW (fun _ => envExecFailW) sQW 2 =
      { sQW with CreationFailureCount := sQW.CreationFailureCount + ((2 : Nat) : Int) } := by
  have hsec : ∀ i : Nat, exceptIsOk ((fun _ : Nat => envExecFailW) i).secretResult = true := by
    intro i
    show exceptIsOk envExecFailW.secretResult = true
    decide
  have hinfo : ∀ i : Nat, exceptIsOk (GetQueryInfo tW ((fun _ : Nat => envExecFailW) i)) = true := by
    intro i
    show exceptIsOk (GetQueryInfo tW envExecFailW) = true
    decide
  have hexec : ∀ i : Nat, exceptIsOk ((fun _ : Nat => envExecFailW) i).executeResult = false := by
    intro i
    show exceptIsOk envExecFailW.executeResult = false
    decide
  exact hive_C6 cfgW tW (fun _ => envExecFailW) sQW (by decide) hsec hinfo hexec 2

/-- A non-empty label matches a cluster config entry exactly when it occurs
among the entry's labels. -/
theorem mapLabelMatches_iff (label : String) (cc : ClusterConfig) (hne : label ≠ "") :
    mapLabelMatches label cc = true ↔ label ∈ cc.Labels := by
  simp [mapLabelMatches, List.any_eq_true, hne]

/-- The outer loop of mapLabelToPrimaryLabel either leaves the accumulator
untouched (no entry matches) or ends at the primary label of some matching
entry with found set. -/
theorem mapLabelLoop_cases (label : String) (l : List ClusterConfig) :
    ∀ acc : String × Bool,
    (mapLabelLoop label acc l = acc ∧ ∀ cc ∈ l, mapLabelMatches label cc = false) ∨
    (∃ cc ∈ l, mapLabelMatches label cc = true ∧
      (mapLabelLoop label acc l).1 = cc.PrimaryLabel ∧
      (mapLabelLoop label acc l).2 = true) := by
  induction l with
  | nil =>
    intro acc
    exact Or.inl ⟨rfl, by simp⟩
  | cons cc rest ih =>
    intro acc
    by_cases hm : mapLabelMatches label cc = true
    · have hstep : mapLabelLoop label acc (cc :: rest) =
          mapLabelLoop label (cc.PrimaryLabel, true) rest := by
        rw [mapLabelLoop, if_pos hm]
      rcases ih (cc.PrimaryLabel, true) with ⟨heq, hnone⟩ | ⟨cc2, hmem, hm2, h1, h2⟩
      · exact Or.inr ⟨cc, List.mem_cons_self cc rest, hm,
          by rw [hstep, heq], by rw [hstep, heq]⟩
      · exact Or.inr ⟨cc2, List.mem_cons_of_mem cc hmem, hm2,
          by rw [hstep]; exact h1, by rw [hstep]; exact h2⟩
    · have hstep : mapLabelLoop label acc (cc :: rest) = mapLabelLoop label acc rest := by
        rw [mapLabelLoop, if_neg hm]
      rw [Bool.not_eq_true] at hm
      rcases ih acc with ⟨heq, hnone⟩ | ⟨cc2, hmem, hm2, h1, h2⟩
      · refine Or.inl ⟨by rw [hstep, heq], ?_⟩
        intro cc3 hcc3
        rcases List.mem_cons.mp hcc3 with h | h
        · rw [h]
          exact hm
        · exact hnone cc3 h
      · exact Or.inr ⟨cc2, List.mem_cons_of_mem cc hmem, hm2,
          by rw [hstep]; exact h1, by rw [hstep]; exact h2⟩

/-- Characterisation of mapLabelToPrimaryLabel for a non-empty label: either
no cluster config lists the label and the default primary label comes back
not-found, or some listing entry's primary label comes back found. -/
theorem mapLabelToPrimaryLabel_spec (cfg : Config) (label : String) (hne : label ≠ "") :
    ((mapLabelToPrimaryLabel cfg label).2 = false ∧
      (mapLabelToPrimaryLabel cfg label).1 = DefaultClusterPrimaryLabel ∧
      ∀ cc ∈ cfg.ClusterConfigs, label ∉ cc.Labels) ∨
    (∃ cc ∈ cfg.ClusterConfigs, label ∈ cc.Labels ∧
      (mapLabelToPrimaryLabel cfg label).1 = cc.PrimaryLabel ∧
      (mapLabelToPrimaryLabel cfg label).2 = true) := by
  unfold mapLabelToPrimaryLabel
  rw [if_neg hne]
  rcases mapLabelLoop_cases label cfg.ClusterConfigs (DefaultClusterPrimaryLabel, false) with
    ⟨heq, hnone⟩ | ⟨cc, hmem, hm, h1, h2⟩
  · left
    refine ⟨by rw [heq], by rw [heq], ?_⟩
    intro cc hcc hlab
    have hmt := (mapLabelMatches_iff label cc hne).mpr hlab
    rw [hnone cc hcc] at hmt
    exact absurd hmt (by decide)
  · right
    exact ⟨cc, hmem, (mapLabelMatches_iff label cc hne).mp hm, h1, h2⟩

/-- The override branch of getClusterPrimaryLabel is not taken when the
override is empty or listed in no cluster config. -/
theorem overrideCondFalse (cfg : Config) (ovr : String)
    (hno : ovr = "" ∨ ∀ cc ∈ cfg.ClusterConfigs, ovr ∉ cc.Labels) :
    ¬(ovr ≠ "" ∧ (mapLabelToPrimaryLabel cfg ovr).2 = true) := by
  rcases hno with h | h
  · exact fun hc => hc.1 h
  · intro hc
    rcases mapLabelToPrimaryLabel_spec cfg ovr hc.1 with ⟨hf, _, _⟩ | ⟨cc, hmem, hlab, _, _⟩
    · have h2 := hc.2
      rw [hf] at h2
      exact absurd h2 (by decide)
    · exact absurd hlab (h cc hmem)

/-- C8: the resource-namespace label is derived by the precedence: a
non-empty override listed in a cluster config yields that entry's primary
label; otherwise a (project, domain) hit in the destination table yields the
primary-label resolution of the mapped cluster label; otherwise the fixed
default primary label. -/
theorem hive_C8 (cfg : Config) (tCtx : TaskCtx) (ovr : String) :
    (ovr ≠ "" → (∃ cc ∈ cfg.ClusterConfigs, ovr ∈ cc.Labels) →
      ∃ cc ∈ cfg.ClusterConfigs, ovr ∈ cc.Labels ∧
        getClusterPrimaryLabel cfg tCtx ovr = cc.PrimaryLabel) ∧
    ((ovr = "" ∨ ∀ cc ∈ cfg.ClusterConfigs, ovr ∉ cc.Labels) →
      ∀ m, cfg.DestinationClusterConfigs.find?
          (fun m2 => (tCtx.project == m2.Project) && (tCtx.domain == m2.Domain)) = some m →
        getClusterPrimaryLabel cfg tCtx ovr = (mapLabelToPrimaryLabel cfg m.ClusterLabel).1) ∧
    ((ovr = "" ∨ ∀ cc ∈ cfg.ClusterConfigs, ovr ∉ cc.Labels) →
      cfg.DestinationClusterConfigs.find?
          (fun m2 => (tCtx.project == m2.Project) && (tCtx.domain == m2.Domain)) = none →
      getClusterPrimaryLabel cfg tCtx ovr = DefaultClusterPrimaryLabel) := by
  refine ⟨?_, ?_, ?_⟩
  · intro hne hex
    rcases mapLabelToPrimaryLabel_spec cfg ovr hne with ⟨hf, hd, hnone⟩ | ⟨cc, hmem, hlab, h1, h2⟩
    · rcases hex with ⟨cc, hmem, hlab⟩
      exact absurd hlab (hnone cc hmem)
    · refine ⟨cc, hmem, hlab, ?_⟩
      unfold getClusterPrimaryLabel
      rw [if_pos ⟨hne, h2⟩]
      exact h1
  · intro hno m hm
    have hpd : mapProjectDomainToDestinationClusterLabel tCtx cfg = (m.ClusterLabel, true) := by
      unfold mapProjectDomainToDestinationClusterLabel
      rw [hm]
    unfold getClusterPrimaryLabel
    rw [if_neg (overrideCondFalse cfg ovr hno), hpd]
    simp
  · intro hno hmn
    have hpd : mapProjectDomainToDestinationClusterLabel tCtx cfg = ("", false) := by
      unfold mapProjectDomainToDestinationClusterLabel
      rw [hmn]
    unfold getClusterPrimaryLabel
    rw [if_neg (overrideCondFalse cfg ovr hno), hpd]
    simp

theorem hive_C8_witness :
    getClusterPrimaryLabel cfg8 tW ("teamA") = "prod-1" ∧
    getClusterPrimaryLabel cfg8 tW "" = (mapLabelToPrimaryLabel cfg8 ("teamB")).1 ∧
    getClusterPrimaryLabel cfg8 tW3 "" = DefaultClusterPrimaryLabel := by
  refine ⟨?_, ?_, ?_⟩
  · obtain ⟨cc, hmem, hlab, heq⟩ := (hive_C8 cfg8 tW ("teamA")).1 (by decide)
      ⟨{ PrimaryLabel := "prod-1", Labels := ["teamA"] }, by decide, by decide⟩
    rw [heq]
    have hcases : cc = { PrimaryLabel := "prod-1", Labels := ["teamA"] } ∨
        cc = { PrimaryLabel := "prod-2", Labels := ["teamB"] } := by
      simpa [cfg8] using hmem
    rcases hcases with h | h
    · rw [h]
    · rw [h] at hlab
      exact absurd hlab (by decide)
  · exact (hive_C8 cfg8 tW "").2.1 (Or.inl rfl)
      { Project := "p", Domain := "d", ClusterLabel := "teamB" } (by decide)
  · exact (hive_C8 cfg8 tW3 "").2.2 (Or.inl rfl) (by decide)

/-- GetAllocationToken never produces a terminal phase, so its result
trivially satisfies the terminal-command-id invariant. -/
theorem allocPreservesInv (cfg : Config) (tCtx : TaskCtx) (env : Env) (s : ExecutionState) :
    terminalHasCommandId (GetAllocationToken cfg tCtx env s).1 = true := by
  rcases hcm : composeResourceNamespaceWithClusterPrimaryLabel cfg tCtx env with e | lbl
  · rw [getAllocationToken_compose_error cfg tCtx env s e hcm]
    rfl
  · rcases ha : env.allocResult with e | status
    · rw [getAllocationToken_alloc_error cfg tCtx env s lbl e hcm ha]
      rfl
    · rw [getAllocationToken_status cfg tCtx env s lbl status hcm ha]
      have n1 : AllocationStatusExhausted ≠ AllocationStatusGranted := by decide
      have n2 : AllocationStatusNamespaceQuotaExceeded ≠ AllocationStatusGranted := by decide
      have n3 : AllocationStatusNamespaceQuotaExceeded ≠ AllocationStatusExhausted := by decide
      have n4 : AllocationStatusExhausted ≠ AllocationStatusNamespaceQuotaExceeded := by decide
      by_cases hz : s.AllocationTokenRequestStartTime = 0 <;>
        by_cases hg : status = AllocationStatusGranted <;>
        by_cases hx : status = AllocationStatusExhausted <;>
        by_cases hn : status = AllocationStatusNamespaceQuotaExceeded <;>
        simp [hz, hg, hx, hn, n1, n2, n3, n4, terminalHasCommandId, InTerminalState,
          PhaseQueued, PhaseNotStarted, PhaseQuerySucceeded, PhaseQueryFailed,
          zeroExecutionState]

/-- KickOffQuery preserves the terminal-command-id invariant. -/
theorem kickPreservesInv (cfg : Config) (tCtx : TaskCtx) (env : Env) (s : ExecutionState)
    (h : terminalHasCommandId s = true) :
    terminalHasCommandId (KickOffQuery cfg tCtx env s).1 = true := by
  rcases hs : env.secretResult with e | k
  · rw [kickOffQuery_secret_error cfg tCtx env s e hs]
    exact h
  · rcases hq : GetQueryInfo tCtx env with e | info
    · rw [kickOffQuery_info_error cfg tCtx env s k e hs hq]
      exact h
    · rcases he : env.executeResult with e | cd
      · rw [kickOffQuery_exec_error cfg tCtx env s k info e hs hq he]
        exact h
      · rw [kickOffQuery_exec_ok cfg tCtx env s k info cd hs hq he]
        rfl

/-- MonitorQuery preserves the terminal-command-id invariant for cache reads
satisfying GoodEnv. -/
theorem monitorPreservesInv (tCtx : TaskCtx) (env : Env) (s : ExecutionState)
    (hg : GoodEnv env = true) (h : terminalHasCommandId s = true) :
    terminalHasCommandId (MonitorQuery tCtx env s).1 = true := by
  rcases hm : env.monitorCacheResult with e | v
  · rw [monitorQuery_cache_error tCtx env s e hm]
    exact h
  · rcases v with c | n
    · rw [monitorQuery_cache_item tCtx env s c hm]
      unfold GoodEnv at hg
      rw [hm] at hg
      exact hg
    · rw [monitorQuery_cache_foreign tCtx env s n hm]
      exact h

/-- One HandleExecutionState step preserves the terminal-command-id
invariant. -/
theorem handlePreservesInv (cfg : Config) (tCtx : TaskCtx) (env : Env) (s : ExecutionState)
    (hg : GoodEnv env = true) (h : terminalHasCommandId s = true) :
    terminalHasCommandId (HandleExecutionState cfg tCtx env s).1 = true := by
  unfold HandleExecutionState
  split_ifs with h0 h1 h2 h3 h4
  · exact allocPreservesInv cfg tCtx env s
  · exact kickPreservesInv cfg tCtx env s h
  · exact monitorPreservesInv tCtx env s hg h
  · exact h
  · exact h
  · rfl

/-- Every reachable state satisfies the terminal-command-id invariant. -/
theorem reachableInv (cfg : Config) (tCtx : TaskCtx) (s : ExecutionState)
    (h : Reachable cfg tCtx s) : terminalHasCommandId s = true := by
  induction h with
  | init => rfl
  | step s2 env hr hge ih => exact handlePreservesInv cfg tCtx env s2 hge ih

/-- C4: every state reachable from the initial NotStarted state by iterating
HandleExecutionState has a non-empty command id whenever its phase is
Succeeded or Failed, and applying HandleExecutionState to such a terminal
state returns exactly the same state with a nil error. -/
theorem hive_C4 (cfg : Config) (tCtx : TaskCtx) (s : ExecutionState)
    (h : Reachable cfg tCtx s) (ht : InTerminalState s = true) :
    s.CommandId ≠ "" ∧ ∀ env : Env, HandleExecutionState cfg tCtx env s = (s, none) := by
  have hp : s.Phase = PhaseQuerySucceeded ∨ s.Phase = PhaseQueryFailed := by
    have h1 := ht
    unfold InTerminalState at h1
    simp only [Bool.or_eq_true, beq_iff_eq] at h1
    exact h1
  constructor
  · have hc := reachableInv cfg tCtx s h
    unfold terminalHasCommandId at hc
    rw [ht] at hc
    simpa using hc
  · intro env
    have e1 : PhaseQuerySucceeded ≠ PhaseNotStarted := by decide
    have e2 : PhaseQuerySucceeded ≠ PhaseQueued := by decide
    have e3 : PhaseQuerySucceeded ≠ PhaseSubmitted := by decide
    have e4 : PhaseQueryFailed ≠ PhaseNotStarted := by decide
    have e5 : PhaseQueryFailed ≠ PhaseQueued := by decide
    have e6 : PhaseQueryFailed ≠ PhaseSubmitted := by decide
    have e7 : PhaseQueryFailed ≠ PhaseQuerySucceeded := by decide
    rcases hp with hp | hp
    · simp [HandleExecutionState, hp, e1, e2, e3]
    · simp [HandleExecutionState, hp, e4, e5, e6, e7]

theorem hive_C4_witness :
    sTermW.CommandId ≠ "" ∧ HandleExecutionState cfgW tW envOkW sTermW = (sTermW, none) := by
  have h0 : Reachable cfgW tW zeroExecutionState := Reachable.init
  have h1 : Reachable cfgW tW s1W := by
    have h := Reachable.step zeroExecutionState envOkW h0 (by decide)
    rwa [show (HandleExecutionState cfgW tW envOkW zeroExecutionState).1 = s1W from by decide]
      at h
  have h2 : Reachable cfgW tW s2W := by
    have h := Reachable.step s1W envOkW h1 (by decide)
    rwa [show (HandleExecutionState cfgW tW envOkW s1W).1 = s2W from by decide] at h
  have h3 : Reachable cfgW tW sTermW := by
    have h := Reachable.step s2W envTermW h2 (by decide)
    rwa [show (HandleExecutionState cfgW tW envTermW s2W).1 = sTermW from by decide] at h
  have hm := hive_C4 cfgW tW sTermW h3 (by decide)
  exact ⟨hm.1, hm.2 envOkW⟩
